import Mathlib

/-!
Verification of the pyMKM data registry (`src/pymkm/io/data_registry.py`).

The Python module is shallowly embedded: filesystem state is an explicit
finite map from segment-list paths to entries, the outcomes of the
`importlib` probes (`importlib.util.find_spec`, `importlib.resources.files`)
are part of the environment, and each registry function becomes a pure Lean
function from an environment (plus its string arguments) to an
`Except PyErr` result.  Path segments are treated as atomic tokens (no
separator characters inside a segment); `os.path` operations are modelled
on that representation.
-/

namespace PyMKM

/-- A JSON value, as produced by Python's `json.load`.  Arrays and objects
are encoded as cons-lists inside the same inductive (`arrNil`/`arrCons`,
`objNil`/`objCons`) so that equality stays structurally derivable: an object
`{"H": {"Z": 1}}` is `objCons "H" (objCons "Z" (num 1) objNil) objNil`. -/
inductive Json where
  | null : Json
  | bool (b : Bool) : Json
  | num (n : Int) : Json
  | str (s : String) : Json
  | arrNil : Json
  | arrCons (head tail : Json) : Json
  | objNil : Json
  | objCons (key : String) (val rest : Json) : Json
  deriving DecidableEq, Repr

/-- The content of a regular file, viewed through the two stdlib readers the
registry uses: `lines` is what `f.readlines()` returns (the logical lines),
and `jsonOf` is the result of `json.load` on the same bytes (`none` means
`json.JSONDecodeError`).  Both views model the respective stdlib call's
contract on the file's bytes. -/
structure FileContent where
  lines : List String
  jsonOf : Option Json
  deriving DecidableEq, Repr

/-- A directory entry: a regular file with content, or a directory. -/
inductive Entry where
  | file (c : FileContent) : Entry
  | dir : Entry
  deriving DecidableEq, Repr

/-- A filesystem snapshot: a finite association list from absolute paths
(segment lists) to entries.  List order models directory iteration order. -/
structure FS where
  entries : List (List String × Entry)
  deriving DecidableEq, Repr

def FS.lookup (fs : FS) (p : List String) : Option Entry :=
  (fs.entries.find? (fun e => e.1 == p)).map (·.2)

def FS.isDir (fs : FS) (p : List String) : Bool :=
  match fs.lookup p with
  | some Entry.dir => true
  | _ => false

def FS.isFile (fs : FS) (p : List String) : Bool :=
  match fs.lookup p with
  | some (Entry.file _) => true
  | _ => false

/-- The children of directory `p`, in iteration order: entries whose path is
`p` extended by one segment, paired with that final segment (the name). -/
def FS.children (fs : FS) (p : List String) : List (String × Entry) :=
  fs.entries.filterMap (fun e =>
    match e.1.getLast? with
    | some n => if e.1.dropLast == p then some (n, e.2) else none
    | none => none)

/-- A path as built by `os.path.join`: its segments plus whether the string
ends in a separator (joining with an empty component leaves a trailing
separator, which matters to `os.path.exists`). -/
structure PyPath where
  segs : List String
  trailing : Bool
  deriving DecidableEq, Repr

/-- One step of `os.path.join` with a relative component: an empty component
only leaves a trailing separator, a non-empty one is appended. -/
def pyJoinStep (p : PyPath) (c : String) : PyPath :=
  if c = "" then { segs := p.segs, trailing := true }
  else { segs := p.segs ++ [c], trailing := false }

/-- Model of `os.path.join(base, c1, ..., cn)` for relative components. -/
def pyJoinAll (p : PyPath) (cs : List String) : PyPath :=
  cs.foldl pyJoinStep p

/-- One segment of `os.path.abspath` normalisation: `..` removes the
previous segment, anything else is kept. -/
def normStep (acc : List String) (c : String) : List String :=
  if c = ".." then acc.dropLast else acc ++ [c]

/-- Segment normalisation performed by `os.path.abspath`.  (The embedded
paths are already absolute.) -/
def normSegs (segs : List String) : List String :=
  segs.foldl normStep []

/-- Model of `os.path.abspath`: normalises the segments and drops any trailing
separator. -/
def pyAbspath (p : PyPath) : PyPath :=
  { segs := normSegs p.segs, trailing := false }

/-- Model of `os.path.exists`: a path with a trailing separator exists only if it
names a directory; otherwise any entry (file or directory) counts. -/
def pyExists (fs : FS) (p : PyPath) : Bool :=
  if p.trailing then fs.isDir p.segs else (fs.lookup p.segs).isSome

/-- Model of `os.path.basename`: the final segment, or `""` after a trailing
separator. -/
def pyBasename (p : PyPath) : String :=
  if p.trailing then "" else (p.segs.getLast?).getD ""

/-- Model of `pathlib.PurePath.suffix` of a name: the part from the last dot on,
provided that dot is neither the first nor the last character. -/
def pySuffix (name : String) : String :=
  let rcs := name.data.reverse
  let ext := rcs.takeWhile (fun ch => ch ≠ '.')
  let rest := rcs.dropWhile (fun ch => ch ≠ '.')
  if ext.isEmpty then ""
  else if rest.length < 2 then ""
  else String.mk ('.' :: ext.reverse)

/-- The Python exception class an error is raised with. -/
inductive ExcType where
  | fileNotFoundError : ExcType
  | jsonDecodeError : ExcType
  | isADirectoryError : ExcType
  | otherException : ExcType
  deriving DecidableEq, Repr

/-- The errors the embedded registry functions can produce.  The first four
are the module's own `raise` statements; the rest model exceptions raised by
the standard library at the corresponding call sites. -/
inductive PyErr where
  /-- Raised at `data_registry.py:57`. -/
  | notFoundFile (filename source : String) : PyErr
  /-- Raised at `data_registry.py:81`. -/
  | registryUnavailable : PyErr
  /-- Raised at `data_registry.py:97`. -/
  | malformedSource (subdir : String) (missing : List String) : PyErr
  /-- Raised at `data_registry.py:128`. -/
  | notFoundSource (source : String) : PyErr
  /-- builtin `FileNotFoundError` from `open`/`Path.iterdir` on a missing
  path -/
  | osNotFound (path : List String) : PyErr
  /-- Raised as `json.JSONDecodeError` by `json.load`. -/
  | jsonDecodeErr : PyErr
  /-- Raised as `IsADirectoryError` by `open` on a directory. -/
  | isADirectoryErr : PyErr
  /-- an exception from an importlib probe propagating uncaught -/
  | propagatedProbeErr : PyErr
  deriving DecidableEq, Repr

def PyErr.excType : PyErr → ExcType
  | PyErr.notFoundFile _ _ => ExcType.fileNotFoundError
  | PyErr.registryUnavailable => ExcType.fileNotFoundError
  | PyErr.malformedSource _ _ => ExcType.fileNotFoundError
  | PyErr.notFoundSource _ => ExcType.fileNotFoundError
  | PyErr.osNotFound _ => ExcType.fileNotFoundError
  | PyErr.jsonDecodeErr => ExcType.jsonDecodeError
  | PyErr.isADirectoryErr => ExcType.isADirectoryError
  | PyErr.propagatedProbeErr => ExcType.otherException

/-- The f-string messages of the module's explicit raises. -/
def PyErr.msg : PyErr → String
  | PyErr.notFoundFile f s =>
      "Cannot find file '" ++ f ++ "' for source '" ++ s ++ "'"
  | PyErr.registryUnavailable => "Could not locate default sources."
  | PyErr.malformedSource d miss =>
      "Source files with unexpected header format in default source folder "
        ++ d ++ ": " ++ String.intercalate ", " miss
        ++ ".\nCould not locate default sources."
  | PyErr.notFoundSource s => "Could not locate txt files for source: " ++ s
  | _ => ""

/-- Outcome of `importlib.util.find_spec(name)`: the probe may raise, find
no spec (or one with `origin = None`), or yield a spec; in the last case we
record the package directory (`os.path.dirname(spec.origin)` resp.
`Path(spec.origin).parent`, which is what the module derives from it). -/
inductive FindSpec where
  | raises : FindSpec
  | notFound : FindSpec
  | found (dir : List String) : FindSpec
  deriving DecidableEq, Repr

/-- The environment a call runs in: the filesystem snapshot plus the
outcomes of the importlib probes the module performs.  `ioDir` is
`os.path.dirname(__file__)` of `data_registry.py` as absolute normalised
segments.  For the `importlib.resources.files` probes, `none` means the call
raised; `some p` means it returned a traversable rooted at `p`. -/
structure Env where
  fs : FS
  ioDir : List String
  /-- Outcome of `find_spec("pymkm.data.defaults." + source)`. -/
  specSrc : String → FindSpec
  /-- Outcome of `files("pymkm.data.defaults")`. -/
  filesRoot : Option (List String)
  /-- Outcome of `find_spec("pymkm.data.defaults")`. -/
  specRoot : FindSpec
  /-- Outcome of `files("pymkm.data.defaults." + source)`. -/
  filesSrc : String → Option (List String)
  /-- Outcome of `files("pymkm.data")`. -/
  filesData : Option (List String)

/-- A string that can actually be the name of a filesystem entry: real
filesystems have no entry named `""`, `"."` or `".."`, so a source or file
said to be *present* in a tier implicitly has a valid name. -/
def validName (n : String) : Prop :=
  n ≠ "" ∧ n ≠ "." ∧ n ≠ ".."

instance (n : String) : Decidable (validName n) := by
  unfold validName; infer_instance

/-- The local fallback's `data/defaults` directory,
`<dirname(__file__)>/../data/defaults` after `abspath` normalisation. -/
def localDefaultsDir (env : Env) : List String :=
  normSegs (env.ioDir ++ [".."]) ++ ["data", "defaults"]

/-! ## `get_default_txt_path` (`data_registry.py:22-57`) -/

/-- Lines 51-53: the local development path
`os.path.abspath(os.path.join(os.path.dirname(__file__), "..", "data",
"defaults", source, filename))`. -/
def localTxtPath (env : Env) (source filename : String) : PyPath :=
  pyAbspath (pyJoinAll { segs := env.ioDir, trailing := false }
    ["..", "data", "defaults", source, filename])

/-- Lines 50-57: the local development fallback, checked with
`os.path.exists`; on failure the explicit `FileNotFoundError` of line 57. -/
def localFallback (env : Env) (source filename : String) : Except PyErr PyPath :=
  if pyExists env.fs (localTxtPath env source filename) then
    Except.ok (localTxtPath env source filename)
  else Except.error (PyErr.notFoundFile filename source)

/-- Lines 39-57: probe the installed package via `find_spec`; when a spec
with an origin is found, join the filename onto its directory and return it
if it exists.  Any exception from the probe is swallowed (`except
Exception: pass`), after which the local fallback runs. -/
def getDefaultTxtPath (env : Env) (source filename : String) : Except PyErr PyPath :=
  match env.specSrc source with
  | FindSpec.found baseDir =>
      if pyExists env.fs (pyJoinStep { segs := baseDir, trailing := false } filename) then
        Except.ok (pyJoinStep { segs := baseDir, trailing := false } filename)
      else localFallback env source filename
  | _ => localFallback env source filename

/-! ## `get_available_sources` (`data_registry.py:60-102`) -/

/-- The constant `REQUIRED_HEADER_KEYS` (`data_registry.py:20`). -/
def REQUIRED_HEADER_KEYS : List String :=
  ["Ion", "AtomicNumber", "MassNumber", "SourceProgram", "IonizationPotential", "Target"]

/-- Python's default `str.strip` whitespace set (ASCII part; the registry's
header keys contain none of the extra Unicode whitespace). -/
def isPyWS (c : Char) : Bool :=
  c = ' ' || c = '\t' || c = '\n' || c = '\r' || c = '\x0b' || c = '\x0c'

/-- Model of `str.strip()`: drop leading and trailing whitespace. -/
def pyStrip (cs : List Char) : List Char :=
  ((cs.dropWhile isPyWS).reverse.dropWhile isPyWS).reverse

/-- Model of `line.split('=')[0]`: the characters before the first `=`. -/
def keyPart (cs : List Char) : List Char :=
  cs.takeWhile (fun ch => ch ≠ '=')

/-- Model of `line.split('=')[1]`: the characters between the first and second `=`. -/
def valPart (cs : List Char) : List Char :=
  ((cs.dropWhile (fun ch => ch ≠ '=')).drop 1).takeWhile (fun ch => ch ≠ '=')

/-- Lines 93-94: the header dictionary built from the lines containing `=`
(`'=' in line`), with `line.split('=')[0].strip()` as key and
`line.split('=')[1].strip()` as value. -/
def headerOf (lines : List String) : List (String × String) :=
  (lines.filter (fun l => l.data.any (fun ch => ch = '='))).map (fun l =>
    (String.mk (pyStrip (keyPart l.data)), String.mk (pyStrip (valPart l.data))))

/-- Line 95: the required keys absent from the header dictionary, in the
order of `REQUIRED_HEADER_KEYS`. -/
def missingKeys (header : List (String × String)) : List String :=
  REQUIRED_HEADER_KEYS.filter (fun k => ¬ header.any (fun kv => kv.1 == k))

/-- The names of the directory children of `p` (line 75's
`f for f in base.iterdir() if f.is_dir()`). -/
def dirChildNames (fs : FS) (p : List String) : List String :=
  (fs.children p).filterMap (fun c =>
    match c.2 with
    | Entry.dir => some c.1
    | _ => none)

/-- The children of `p` whose name has suffix `.txt` (line 89 /
line 122/127: `f.suffix == ".txt"`), in iteration order. -/
def txtChildren (fs : FS) (p : List String) : List (String × Entry) :=
  (fs.children p).filter (fun c => pySuffix c.1 == ".txt")

/-- Every entry of the list is a regular file whose header declares all
required keys (the condition under which lines 90-99 pass a source). -/
def txtAllValid (l : List (String × Entry)) : Bool :=
  l.all (fun x =>
    match x.2 with
    | Entry.file c => (missingKeys (headerOf c.lines)).isEmpty
    | Entry.dir => false)

/-- Every entry of the list is a regular file (so `open` raises no
`IsADirectoryError`). -/
def allFiles (l : List (String × Entry)) : Bool :=
  l.all (fun x =>
    match x.2 with
    | Entry.file _ => true
    | Entry.dir => false)

/-- Lines 90-99: open each `.txt` child of a source subdirectory in turn,
read its lines, and stop at the first one whose header misses a required
key, producing the line-97 error naming the subdirectory and the missing
keys.  Opening a directory raises `IsADirectoryError`. -/
def validateTxt (srcName : String) : List (String × Entry) → Option PyErr
  | [] => none
  | (_, Entry.dir) :: _ => some PyErr.isADirectoryErr
  | (_, Entry.file c) :: rest =>
      let miss := missingKeys (headerOf c.lines)
      if miss.isEmpty then validateTxt srcName rest
      else some (PyErr.malformedSource srcName miss)

/-- Lines 83-102: walk the root's subdirectories in order; skip those
without an `__init__.py` regular file; validate the `.txt` children of the
rest, aborting the whole enumeration on the first error; append surviving
names. -/
def enumSources (fs : FS) (base : List String) : List String → Except PyErr (List String)
  | [] => Except.ok []
  | d :: rest =>
      if fs.isFile (base ++ [d, "__init__.py"]) then
        match validateTxt d (txtChildren fs (base ++ [d])) with
        | some e => Except.error e
        | none => (enumSources fs base rest).map (fun l => d :: l)
      else enumSources fs base rest

/-- Lines 76-81: the `except` branch.  `find_spec("pymkm.data.defaults")` is
consulted; when it yields a spec with an origin, the fallback subdirectory
listing is computed into a local (line 80) — and then discarded, because
line 81 raises unconditionally.  `Path.iterdir` on a missing folder raises
the builtin `FileNotFoundError`; a raising probe propagates uncaught. -/
def fallbackRaise (env : Env) : Except PyErr (List String) :=
  match env.specRoot with
  | FindSpec.found folder =>
      match env.fs.lookup folder with
      | some Entry.dir =>
          let _allSubdirectories := dirChildNames env.fs folder
          Except.error PyErr.registryUnavailable
      | some (Entry.file _) => Except.error PyErr.propagatedProbeErr
      | none => Except.error (PyErr.osNotFound folder)
  | FindSpec.notFound => Except.error PyErr.registryUnavailable
  | FindSpec.raises => Except.error PyErr.propagatedProbeErr

/-- Lines 72-102: list the valid sources.  The `try` block resolves the
root with `files("pymkm.data.defaults")` and lists its subdirectories; any
exception there (probe raising, or `iterdir` on a non-directory) enters the
`except` branch, which always fails. -/
def getAvailableSources (env : Env) : Except PyErr (List String) :=
  match env.filesRoot with
  | some base =>
      if env.fs.isDir base then enumSources env.fs base (dirChildNames env.fs base)
      else fallbackRaise env
  | none => fallbackRaise env

/-! ## `list_available_defaults` (`data_registry.py:105-128`) -/

/-- The names with suffix `.txt` directly inside `p` (lines 122 and 127). -/
def txtNames (fs : FS) (p : List String) : List String :=
  (txtChildren fs p).map (fun c => c.1)

/-- Lines 123-128: the `except` branch of `list_available_defaults`:
`find_spec` on the source package; with a spec and origin, list the `.txt`
names of `Path(spec.origin).parent` (`iterdir` on a missing folder raises
the builtin `FileNotFoundError`); otherwise the line-128 error. -/
def ladFallback (env : Env) (source : String) : Except PyErr (List String) :=
  match env.specSrc source with
  | FindSpec.found baseDir =>
      match env.fs.lookup baseDir with
      | some Entry.dir => Except.ok (txtNames env.fs baseDir)
      | some (Entry.file _) => Except.error PyErr.propagatedProbeErr
      | none => Except.error (PyErr.osNotFound baseDir)
  | FindSpec.notFound => Except.error (PyErr.notFoundSource source)
  | FindSpec.raises => Except.error PyErr.propagatedProbeErr

/-- Lines 119-128: list the `.txt` names of the source's directory resolved
by `files("pymkm.data.defaults." + source)`, falling into the `except`
branch when the probe raises or `iterdir` fails. -/
def listAvailableDefaults (env : Env) (source : String) : Except PyErr (List String) :=
  match env.filesSrc source with
  | some p =>
      if env.fs.isDir p then Except.ok (txtNames env.fs p)
      else ladFallback env source
  | none => ladFallback env source

/-! ## `load_lookup_table` (`data_registry.py:131-155`) -/

/-- The local fallback path of lines 151-153:
`os.path.abspath(os.path.join(os.path.dirname(__file__), "..", "data",
"elements.json"))`. -/
def localElementsPath (env : Env) : PyPath :=
  pyAbspath (pyJoinAll { segs := env.ioDir, trailing := false }
    ["..", "data", "elements.json"])

/-- Lines 144-148 as one probe: `files("pymkm.data")`, joined with
`elements.json`, opened and fed to `json.load`.  `some j` when every step
succeeds; `none` when any step raises (probe failure, missing file, file
that is a directory, or undecodable JSON) — the `except Exception` of line
149 catches all of these alike. -/
def installedLookup (env : Env) : Option Json :=
  match env.filesData with
  | some d =>
      match env.fs.lookup (d ++ ["elements.json"]) with
      | some (Entry.file c) => c.jsonOf
      | _ => none
  | none => none

/-- Lines 144-155: try the installed tier; on any exception fall back to
opening the local `elements.json` (builtin `FileNotFoundError` when absent,
`IsADirectoryError` on a directory, `json.JSONDecodeError` when the content
does not parse). -/
def loadLookupTable (env : Env) : Except PyErr Json :=
  match installedLookup env with
  | some j => Except.ok j
  | none =>
      match env.fs.lookup (localElementsPath env).segs with
      | some (Entry.file c) =>
          match c.jsonOf with
          | some j => Except.ok j
          | none => Except.error PyErr.jsonDecodeErr
      | some Entry.dir => Except.error PyErr.isADirectoryErr
      | none => Except.error (PyErr.osNotFound (localElementsPath env).segs)

/-- The content of the local fallback `elements.json`, when it opens as a
regular file. -/
def localElementsContent (env : Env) : Option FileContent :=
  match env.fs.lookup (localElementsPath env).segs with
  | some (Entry.file c) => some c
  | _ => none

/-- The content of the `elements.json` the algorithm actually reads: the
installed tier's file when `files("pymkm.data")` succeeded and the joined
path opens as a regular file, otherwise the local fallback's file (if it
opens). -/
def locatedElementsContent (env : Env) : Option FileContent :=
  match env.filesData with
  | some d =>
      match env.fs.lookup (d ++ ["elements.json"]) with
      | some (Entry.file c) => some c
      | _ => localElementsContent env
  | none => localElementsContent env

/-! ## Concrete environments

The spec's concrete scenario (section 8): an installed registry with one
source `geant4_11_3_0` holding a marker and a fully-headed `carbon.txt`,
and an installed `elements.json` parsing to `{"H": {"Z": 1}}`. -/

/-- Header lines of the scenario's `carbon.txt`. -/
def carbonLines : List String :=
  ["Ion=C", "AtomicNumber=6", "MassNumber=12", "SourceProgram=Geant4",
   "IonizationPotential=78.0", "Target=Water"]

/-- The installed `pymkm/data/defaults` directory. -/
def instRoot : List String := ["usr", "lib", "pymkm", "data", "defaults"]

/-- The installed `pymkm/data` directory. -/
def instData : List String := ["usr", "lib", "pymkm", "data"]

/-- The JSON value `{"H": {"Z": 1}}`. -/
def hJson : Json :=
  Json.objCons "H" (Json.objCons "Z" (Json.num 1) Json.objNil) Json.objNil

/-- The JSON value `{"He": {"Z": 2}}`. -/
def heJson : Json :=
  Json.objCons "He" (Json.objCons "Z" (Json.num 2) Json.objNil) Json.objNil

/-- Filesystem of the valid installed scenario.  (`lines` of the JSON file
is irrelevant to every operation and left empty.) -/
def demoFS : FS :=
  { entries :=
      [(instRoot, Entry.dir),
       (instRoot ++ ["geant4_11_3_0"], Entry.dir),
       (instRoot ++ ["geant4_11_3_0", "__init__.py"], Entry.file { lines := [], jsonOf := none }),
       (instRoot ++ ["geant4_11_3_0", "carbon.txt"], Entry.file { lines := carbonLines, jsonOf := none }),
       (instData ++ ["elements.json"], Entry.file { lines := [], jsonOf := some hJson })] }

/-- The valid installed scenario: every importlib probe resolves to the
installed tree. -/
def demoEnv : Env :=
  { fs := demoFS
    ioDir := ["dev", "pymkm", "io"]
    specSrc := fun s =>
      if s = "geant4_11_3_0" then FindSpec.found (instRoot ++ ["geant4_11_3_0"])
      else FindSpec.notFound
    filesRoot := some instRoot
    specRoot := FindSpec.found instRoot
    filesSrc := fun s =>
      if s = "geant4_11_3_0" then some (instRoot ++ ["geant4_11_3_0"]) else none
    filesData := some instData }

/-- Environment for the discarded-fallback defect: the installed-resource
probe `files("pymkm.data.defaults")` raises, while `find_spec` still
resolves the local development tree, which holds a perfectly valid source. -/
def envNoInstall : Env :=
  let localRoot : List String := ["dev", "pymkm", "data", "defaults"]
  { fs :=
      { entries :=
          [(localRoot, Entry.dir),
           (localRoot ++ ["geant4_11_3_0"], Entry.dir),
           (localRoot ++ ["geant4_11_3_0", "__init__.py"], Entry.file { lines := [], jsonOf := none }),
           (localRoot ++ ["geant4_11_3_0", "carbon.txt"], Entry.file { lines := carbonLines, jsonOf := none })] }
    ioDir := ["dev", "pymkm", "io"]
    specSrc := fun _ => FindSpec.notFound
    filesRoot := none
    specRoot := FindSpec.found localRoot
    filesSrc := fun _ => none
    filesData := none }

/-- The scenario's registry with `carbon.txt` lacking its `Target` line. -/
def envMissingTarget : Env :=
  { demoEnv with
    fs :=
      { entries :=
          [(instRoot, Entry.dir),
           (instRoot ++ ["geant4_11_3_0"], Entry.dir),
           (instRoot ++ ["geant4_11_3_0", "__init__.py"], Entry.file { lines := [], jsonOf := none }),
           (instRoot ++ ["geant4_11_3_0", "carbon.txt"],
             Entry.file { lines := carbonLines.take 5, jsonOf := none })] } }

/-- Environment where the installed `elements.json` exists but does not
parse, while the local fallback `elements.json` parses to a different
mapping. -/
def envBadInstalledJson : Env :=
  { fs :=
      { entries :=
          [(instData ++ ["elements.json"], Entry.file { lines := [], jsonOf := none }),
           (["dev", "pymkm", "data", "elements.json"], Entry.file { lines := [], jsonOf := some heJson })] }
    ioDir := ["dev", "pymkm", "io"]
    specSrc := fun _ => FindSpec.notFound
    filesRoot := none
    specRoot := FindSpec.notFound
    filesSrc := fun _ => none
    filesData := some instData }

/-- Environment where both tiers' `elements.json` fail to parse. -/
def envBadBothJson : Env :=
  { envBadInstalledJson with
    fs :=
      { entries :=
          [(instData ++ ["elements.json"], Entry.file { lines := [], jsonOf := none }),
           (["dev", "pymkm", "data", "elements.json"], Entry.file { lines := [], jsonOf := none })] } }

/-- Environment in which the installed-tier probe for every source raises
and nothing exists locally. -/
def envProbeRaises : Env :=
  { fs := { entries := [] }
    ioDir := ["dev", "pymkm", "io"]
    specSrc := fun _ => FindSpec.raises
    filesRoot := none
    specRoot := FindSpec.notFound
    filesSrc := fun _ => none
    filesData := none }

/-! ## Helper lemmas -/

theorem isDir_iff (fs : FS) (p : List String) :
    fs.isDir p = true ↔ fs.lookup p = some Entry.dir := by
  unfold FS.isDir
  cases h : fs.lookup p with
  | none => simp
  | some e => cases e <;> simp

theorem isFile_isSome (fs : FS) (p : List String) (h : fs.isFile p = true) :
    (fs.lookup p).isSome = true := by
  unfold FS.isFile at h
  cases hl : fs.lookup p with
  | none => rw [hl] at h; simp at h
  | some e => simp

theorem validateTxt_none (s : String) (l : List (String × Entry))
    (h : txtAllValid l = true) : validateTxt s l = none := by
  induction l with
  | nil => rfl
  | cons x rest ih =>
    obtain ⟨n, e⟩ := x
    cases e with
    | dir => simp [txtAllValid] at h
    | file c =>
      simp only [txtAllValid, List.all_cons, Bool.and_eq_true] at h
      unfold validateTxt
      simp only [h.1, if_true]
      exact ih h.2

theorem validateTxt_first (s fn : String) (c : FileContent)
    (tpre tpost : List (String × Entry))
    (h1 : txtAllValid tpre = true)
    (h2 : (missingKeys (headerOf c.lines)).isEmpty = false) :
    validateTxt s (tpre ++ (fn, Entry.file c) :: tpost) =
      some (PyErr.malformedSource s (missingKeys (headerOf c.lines))) := by
  induction tpre with
  | nil =>
    unfold validateTxt
    simp [h2]
  | cons x rest ih =>
    obtain ⟨n, e⟩ := x
    cases e with
    | dir => simp [txtAllValid] at h1
    | file c' =>
      simp only [txtAllValid, List.all_cons, Bool.and_eq_true] at h1
      unfold validateTxt
      simp only [List.cons_append, h1.1, if_true]
      exact ih h1.2

theorem validateTxt_shape (s : String) (l : List (String × Entry)) (e : PyErr)
    (hf : allFiles l = true) (h : validateTxt s l = some e) :
    ∃ miss, e = PyErr.malformedSource s miss := by
  induction l with
  | nil => simp [validateTxt] at h
  | cons x rest ih =>
    obtain ⟨n, en⟩ := x
    cases en with
    | dir => simp [allFiles] at hf
    | file c =>
      simp only [allFiles, List.all_cons, Bool.and_eq_true] at hf
      unfold validateTxt at h
      by_cases hm : (missingKeys (headerOf c.lines)).isEmpty = true
      · rw [if_pos hm] at h
        exact ih hf.2 h
      · rw [if_neg hm] at h
        exact ⟨missingKeys (headerOf c.lines), (Option.some.injEq _ _ ▸ h).symm⟩

theorem enumSources_ok (fs : FS) (base : List String) (ds : List String)
    (h : ∀ d ∈ ds, fs.isFile (base ++ [d, "__init__.py"]) = true →
      txtAllValid (txtChildren fs (base ++ [d])) = true) :
    enumSources fs base ds =
      Except.ok (ds.filter (fun d => fs.isFile (base ++ [d, "__init__.py"]))) := by
  induction ds with
  | nil => rfl
  | cons d rest ih =>
    unfold enumSources
    by_cases hm : fs.isFile (base ++ [d, "__init__.py"]) = true
    · rw [if_pos hm, validateTxt_none _ _ (h d (by simp) hm),
        ih (fun d' hd' hm' => h d' (by simp [hd']) hm')]
      simp [List.filter_cons, hm, Except.map]
    · rw [if_neg hm, ih (fun d' hd' hm' => h d' (by simp [hd']) hm')]
      simp only [List.filter_cons]
      rw [if_neg (by simpa using hm)]

theorem enumSources_error (fs : FS) (base : List String)
    (pre : List String) (d : String) (post : List String) (e : PyErr)
    (hpre : ∀ d' ∈ pre, fs.isFile (base ++ [d', "__init__.py"]) = true →
      txtAllValid (txtChildren fs (base ++ [d'])) = true)
    (hmark : fs.isFile (base ++ [d, "__init__.py"]) = true)
    (hval : validateTxt d (txtChildren fs (base ++ [d])) = some e) :
    enumSources fs base (pre ++ d :: post) = Except.error e := by
  induction pre with
  | nil =>
    rw [List.nil_append]
    unfold enumSources
    rw [if_pos hmark, hval]
  | cons p' rest ih =>
    rw [List.cons_append]
    unfold enumSources
    by_cases hm : fs.isFile (base ++ [p', "__init__.py"]) = true
    · rw [if_pos hm, validateTxt_none _ _ (hpre p' (by simp) hm),
        ih (fun d' hd' hm' => hpre d' (by simp [hd']) hm')]
      rfl
    · rw [if_neg hm]
      exact ih (fun d' hd' hm' => hpre d' (by simp [hd']) hm')

theorem enumSources_shape (fs : FS) (base : List String) (ds : List String) (e : PyErr)
    (h : ∀ d ∈ ds, fs.isFile (base ++ [d, "__init__.py"]) = true →
      allFiles (txtChildren fs (base ++ [d])) = true)
    (he : enumSources fs base ds = Except.error e) :
    ∃ d miss, e = PyErr.malformedSource d miss := by
  induction ds with
  | nil => simp [enumSources] at he
  | cons d rest ih =>
    unfold enumSources at he
    by_cases hm : fs.isFile (base ++ [d, "__init__.py"]) = true
    · rw [if_pos hm] at he
      cases hv : validateTxt d (txtChildren fs (base ++ [d])) with
      | some e' =>
        rw [hv] at he
        obtain ⟨miss, hmiss⟩ := validateTxt_shape d _ e' (h d (by simp) hm) hv
        exact ⟨d, miss, by injection he with h'; rw [← h', hmiss]⟩
      | none =>
        rw [hv] at he
        cases hrest : enumSources fs base rest with
        | ok l => rw [hrest] at he; simp [Except.map] at he
        | error e'' =>
          rw [hrest] at he
          simp only [Except.map] at he
          injection he with h'
          exact ih (fun d' hd' hm' => h d' (by simp [hd']) hm') (h' ▸ hrest)
    · rw [if_neg hm] at he
      exact ih (fun d' hd' hm' => h d' (by simp [hd']) hm') he

theorem foldl_normStep_no_parent (ys : List String) (A : List String)
    (h : ∀ y ∈ ys, y ≠ "..") : List.foldl normStep A ys = A ++ ys := by
  induction ys generalizing A with
  | nil => simp
  | cons y rest ih =>
    rw [List.foldl_cons, normStep, if_neg (h y (by simp)),
      ih (A ++ [y]) (fun y' hy' => h y' (by simp [hy']))]
    simp

theorem normSegs_append (xs ys : List String) (h : ∀ y ∈ ys, y ≠ "..") :
    normSegs (xs ++ ys) = normSegs xs ++ ys := by
  unfold normSegs
  rw [List.foldl_append]
  exact foldl_normStep_no_parent ys _ h

theorem localJoin_eq (env : Env) (s f : String)
    (hs : validName s) (hf1 : f ≠ "") (hf2 : f ≠ "..") :
    localTxtPath env s f =
      { segs := localDefaultsDir env ++ [s, f], trailing := false } := by
  unfold localTxtPath pyJoinAll
  simp only [List.foldl_cons, List.foldl_nil, pyJoinStep,
    if_neg (show (".." : String) ≠ "" by decide),
    if_neg (show ("data" : String) ≠ "" by decide),
    if_neg (show ("defaults" : String) ≠ "" by decide),
    if_neg hs.1, if_neg hf1]
  unfold pyAbspath localDefaultsDir
  simp only [PyPath.mk.injEq, and_true]
  have hys : ∀ y ∈ ["data", "defaults", s, f], y ≠ ".." := by
    intro y hy
    simp only [List.mem_cons, List.mem_singleton] at hy
    rcases hy with rfl | rfl | rfl | hy
    · decide
    · decide
    · exact hs.2.2
    · simp only [List.not_mem_nil, or_false] at hy
      rw [hy]; exact hf2
  calc normSegs (env.ioDir ++ [".."] ++ ["data"] ++ ["defaults"] ++ [s] ++ [f])
      = normSegs ((env.ioDir ++ [".."]) ++ ["data", "defaults", s, f]) := by
        simp [List.append_assoc]
    _ = normSegs (env.ioDir ++ [".."]) ++ ["data", "defaults", s, f] :=
        normSegs_append _ _ hys
    _ = normSegs (env.ioDir ++ [".."]) ++ ["data", "defaults"] ++ [s, f] := by
        simp [List.append_assoc]

theorem localJoin_empty_eq (env : Env) (s : String) (hs : validName s) :
    localTxtPath env s "" =
      { segs := localDefaultsDir env ++ [s], trailing := false } := by
  unfold localTxtPath pyJoinAll
  simp only [List.foldl_cons, List.foldl_nil, pyJoinStep,
    if_neg (show (".." : String) ≠ "" by decide),
    if_neg (show ("data" : String) ≠ "" by decide),
    if_neg (show ("defaults" : String) ≠ "" by decide),
    if_neg hs.1, if_pos rfl]
  unfold pyAbspath localDefaultsDir
  simp only [PyPath.mk.injEq, and_true]
  have hys : ∀ y ∈ ["data", "defaults", s], y ≠ ".." := by
    intro y hy
    simp only [List.mem_cons, List.mem_singleton] at hy
    rcases hy with rfl | rfl | hy
    · decide
    · decide
    · simp only [List.not_mem_nil, or_false] at hy
      rw [hy]; exact hs.2.2
  calc normSegs (env.ioDir ++ [".."] ++ ["data"] ++ ["defaults"] ++ [s])
      = normSegs ((env.ioDir ++ [".."]) ++ ["data", "defaults", s]) := by
        simp [List.append_assoc]
    _ = normSegs (env.ioDir ++ [".."]) ++ ["data", "defaults", s] :=
        normSegs_append _ _ hys
    _ = normSegs (env.ioDir ++ [".."]) ++ ["data", "defaults"] ++ [s] := by
        simp [List.append_assoc]

theorem pyExists_of_isFile (fs : FS) (p : List String) (h : fs.isFile p = true) :
    pyExists fs { segs := p, trailing := false } = true := by
  show (fs.lookup p).isSome = true
  exact isFile_isSome fs p h

theorem pyExists_of_isDir (fs : FS) (p : List String) (h : fs.isDir p = true) :
    pyExists fs { segs := p, trailing := false } = true := by
  show (fs.lookup p).isSome = true
  rw [(isDir_iff fs p).mp h]
  rfl

theorem pyBasename_concat (A : List String) (x : String) :
    pyBasename { segs := A ++ [x], trailing := false } = x := by
  simp [pyBasename, List.getLast?_concat]

theorem localFallback_ok (env : Env) (s f : String)
    (hs : validName s) (hf : validName f)
    (hfile : env.fs.isFile (localDefaultsDir env ++ [s, f]) = true) :
    localFallback env s f =
      Except.ok { segs := localDefaultsDir env ++ [s, f], trailing := false } := by
  unfold localFallback
  rw [localJoin_eq env s f hs hf.1 hf.2.2,
    if_pos (pyExists_of_isFile _ _ hfile)]

theorem localFallback_empty_ok (env : Env) (s : String)
    (hs : validName s)
    (hdir : env.fs.isDir (localDefaultsDir env ++ [s]) = true) :
    localFallback env s "" =
      Except.ok { segs := localDefaultsDir env ++ [s], trailing := false } := by
  unfold localFallback
  rw [localJoin_empty_eq env s hs, if_pos (pyExists_of_isDir _ _ hdir)]

theorem localFallback_error_shape (env : Env) (s f : String) (e : PyErr)
    (he : localFallback env s f = Except.error e) :
    e = PyErr.notFoundFile f s := by
  unfold localFallback at he
  by_cases hx : pyExists env.fs (localTxtPath env s f) = true
  · rw [if_pos hx] at he
    exact absurd he (by simp)
  · rw [if_neg hx] at he
    injection he with h'
    exact h'.symm

theorem getDefaultTxtPath_error_shape (env : Env) (s f : String) (e : PyErr)
    (he : getDefaultTxtPath env s f = Except.error e) :
    e = PyErr.notFoundFile f s := by
  unfold getDefaultTxtPath at he
  cases hs : env.specSrc s with
  | raises => rw [hs] at he; exact localFallback_error_shape env s f e he
  | notFound => rw [hs] at he; exact localFallback_error_shape env s f e he
  | found base =>
    rw [hs] at he
    dsimp only at he
    by_cases hx :
        pyExists env.fs (pyJoinStep { segs := base, trailing := false } f) = true
    · rw [if_pos hx] at he
      exact absurd he (by simp)
    · rw [if_neg hx] at he
      exact localFallback_error_shape env s f e he

theorem fallbackRaise_excType (env : Env)
    (hr : env.specRoot ≠ FindSpec.raises)
    (hfolder : ∀ folder, env.specRoot = FindSpec.found folder →
      env.fs.isFile folder = false)
    (e : PyErr) (he : fallbackRaise env = Except.error e) :
    e.excType = ExcType.fileNotFoundError := by
  unfold fallbackRaise at he
  cases hsr : env.specRoot with
  | raises => exact absurd hsr hr
  | notFound =>
    rw [hsr] at he
    injection he with h
    rw [← h]
    rfl
  | found folder =>
    rw [hsr] at he
    dsimp only at he
    cases hl : env.fs.lookup folder with
    | none =>
      rw [hl] at he
      injection he with h
      rw [← h]
      rfl
    | some en =>
      cases en with
      | dir =>
        rw [hl] at he
        simp only [Except.error.injEq] at he
        rw [← he]
        rfl
      | file c =>
        rw [hl] at he
        have hff := hfolder folder hsr
        unfold FS.isFile at hff
        rw [hl] at hff
        simp at hff

theorem ladFallback_excType (env : Env) (s : String)
    (hr : env.specSrc s ≠ FindSpec.raises)
    (hbase : ∀ base, env.specSrc s = FindSpec.found base →
      env.fs.isFile base = false)
    (e : PyErr) (he : ladFallback env s = Except.error e) :
    e.excType = ExcType.fileNotFoundError := by
  unfold ladFallback at he
  cases hsr : env.specSrc s with
  | raises => exact absurd hsr hr
  | notFound =>
    rw [hsr] at he
    injection he with h
    rw [← h]
    rfl
  | found base =>
    rw [hsr] at he
    dsimp only at he
    cases hl : env.fs.lookup base with
    | none =>
      rw [hl] at he
      injection he with h
      rw [← h]
      rfl
    | some en =>
      cases en with
      | dir =>
        rw [hl] at he
        exact absurd he (by simp)
      | file c =>
        rw [hl] at he
        have hff := hbase base hsr
        unfold FS.isFile at hff
        rw [hl] at hff
        simp at hff

/-! ## Claims -/

/-- C1:  The claim states that when the installed-resource tier fails
to resolve the registry root, `get_available_sources` proceeds via the
local fallback tier and can still return a list of source names.  The code
does the opposite: its `except` branch reads the fallback listing into a
variable and then raises unconditionally.  In an environment where only the
fallback tier locates a perfectly valid registry, enumeration still fails
with the line-81 "Could not locate default sources." error. -/
theorem C1_fallback_listing_discarded :
    getAvailableSources envNoInstall = Except.error PyErr.registryUnavailable := rfl

/-- C2:  When the root's subdirectory listing has a first marker-bearing
subdirectory `d` whose `.txt` children have a first header-invalid file
(every earlier marker-bearing subdirectory being fully valid), enumeration
fails with the MalformedSource error carrying exactly `d` and exactly the
required keys missing from that file, and its message names both; no
partial list of previously validated sources is returned. -/
theorem C2_malformed_source_fail_fast (env : Env) (base : List String)
    (pre : List String) (d : String) (post : List String)
    (tpre : List (String × Entry)) (fn : String) (c : FileContent)
    (tpost : List (String × Entry))
    (h1 : env.filesRoot = some base)
    (h2 : env.fs.isDir base = true)
    (h3 : dirChildNames env.fs base = pre ++ d :: post)
    (hpre : ∀ d' ∈ pre, env.fs.isFile (base ++ [d', "__init__.py"]) = true →
      txtAllValid (txtChildren env.fs (base ++ [d'])) = true)
    (hmark : env.fs.isFile (base ++ [d, "__init__.py"]) = true)
    (htxt : txtChildren env.fs (base ++ [d]) = tpre ++ (fn, Entry.file c) :: tpost)
    (htpre : txtAllValid tpre = true)
    (hbad : (missingKeys (headerOf c.lines)).isEmpty = false) :
    getAvailableSources env =
      Except.error (PyErr.malformedSource d (missingKeys (headerOf c.lines))) ∧
    (PyErr.malformedSource d (missingKeys (headerOf c.lines))).msg =
      "Source files with unexpected header format in default source folder "
        ++ d ++ ": " ++ String.intercalate ", " (missingKeys (headerOf c.lines))
        ++ ".\nCould not locate default sources." := by
  constructor
  · unfold getAvailableSources
    rw [h1]
    dsimp only
    rw [if_pos h2, h3]
    have hval : validateTxt d (txtChildren env.fs (base ++ [d])) =
        some (PyErr.malformedSource d (missingKeys (headerOf c.lines))) := by
      rw [htxt]
      exact validateTxt_first d fn c tpre tpost htpre hbad
    exact enumSources_error env.fs base pre d post _ hpre hmark hval
  · rfl

/-- Witness for C2: the spec's concrete scenario with `carbon.txt` lacking
its `Target` line fails citing `geant4_11_3_0` and `Target`. -/
theorem C2_malformed_source_fail_fast_witness :
    getAvailableSources envMissingTarget =
      Except.error (PyErr.malformedSource "geant4_11_3_0" ["Target"]) := by
  have h := C2_malformed_source_fail_fast envMissingTarget instRoot [] "geant4_11_3_0" []
    [] "carbon.txt" { lines := carbonLines.take 5, jsonOf := none } []
    rfl rfl rfl (by intro d' hd'; simp at hd') rfl rfl rfl rfl
  rw [h.1]
  rfl

/-- C6:  When the installed tier resolves the registry root and every
marker-bearing subdirectory's `.txt` children are valid files,
`get_available_sources` returns exactly the names of the root's immediate
subdirectories that contain the `__init__.py` marker, in iteration order:
marker-less subdirectories are skipped regardless of content, and every
marker-bearing one (with all-valid or zero `.txt` children) is appended. -/
theorem C6_sources_are_marked_valid_dirs (env : Env) (base : List String)
    (h1 : env.filesRoot = some base)
    (h2 : env.fs.isDir base = true)
    (h3 : ∀ d ∈ dirChildNames env.fs base,
      env.fs.isFile (base ++ [d, "__init__.py"]) = true →
      txtAllValid (txtChildren env.fs (base ++ [d])) = true) :
    getAvailableSources env =
      Except.ok ((dirChildNames env.fs base).filter
        (fun d => env.fs.isFile (base ++ [d, "__init__.py"]))) := by
  unfold getAvailableSources
  rw [h1]
  dsimp only
  rw [if_pos h2]
  exact enumSources_ok env.fs base _ h3

/-- Witness for C6: the spec's concrete valid scenario enumerates exactly
`["geant4_11_3_0"]`. -/
theorem C6_sources_are_marked_valid_dirs_witness :
    getAvailableSources demoEnv = Except.ok ["geant4_11_3_0"] := by
  have h := C6_sources_are_marked_valid_dirs demoEnv instRoot rfl rfl (by decide)
  rw [h]
  rfl

/-- C4:  For `get_default_txt_path`: an error raised while probing the
installed tier is suppressed — resolution proceeds exactly as the local
fallback alone (first conjunct) and no error other than the final NotFound
ever reaches the caller (second conjunct, which also pins its message to
one naming both the filename and the source); when neither the installed
path nor the local fallback path exists, the call fails with that NotFound
error (third conjunct). -/
theorem C4_probe_error_suppressed (env : Env) (s f : String) :
    (env.specSrc s = FindSpec.raises →
      getDefaultTxtPath env s f = localFallback env s f) ∧
    (∀ e, getDefaultTxtPath env s f = Except.error e →
      e = PyErr.notFoundFile f s ∧
      e.msg = "Cannot find file '" ++ f ++ "' for source '" ++ s ++ "'") ∧
    ((∀ base, env.specSrc s = FindSpec.found base →
        pyExists env.fs (pyJoinStep { segs := base, trailing := false } f) = false) →
      pyExists env.fs (localTxtPath env s f) = false →
      getDefaultTxtPath env s f = Except.error (PyErr.notFoundFile f s)) := by
  refine ⟨?_, ?_, ?_⟩
  · intro h
    unfold getDefaultTxtPath
    rw [h]
  · intro e he
    have he' := getDefaultTxtPath_error_shape env s f e he
    exact ⟨he', by rw [he']; rfl⟩
  · intro hinst hlocal
    have hfb : localFallback env s f = Except.error (PyErr.notFoundFile f s) := by
      unfold localFallback
      rw [if_neg (by simp [hlocal])]
    unfold getDefaultTxtPath
    cases hs : env.specSrc s with
    | raises => exact hfb
    | notFound => exact hfb
    | found base =>
      dsimp only
      rw [if_neg (by simp [hinst base hs])]
      exact hfb

/-- Witness for C4: with every installed-tier probe raising and an empty
filesystem, resolution fails with the NotFound error naming file and
source. -/
theorem C4_probe_error_suppressed_witness :
    getDefaultTxtPath envProbeRaises "s0" "f0.txt" =
      Except.error (PyErr.notFoundFile "f0.txt" "s0") := by
  refine (C4_probe_error_suppressed envProbeRaises "s0" "f0.txt").2.2 ?_ rfl
  intro base hb
  simp [envProbeRaises] at hb

/-- C5:  If the file is present in the installed tier, resolution
returns that tier's path (first conjunct — the installed tier takes
precedence whatever the local tier holds); and whenever the file is present
in at least one tier, resolution succeeds with a path that exists and whose
terminal segment equals the filename (second conjunct). -/
theorem C5_present_file_resolves (env : Env) (s f : String) :
    (∀ base, env.specSrc s = FindSpec.found base → validName f →
      env.fs.isFile (base ++ [f]) = true →
      getDefaultTxtPath env s f =
        Except.ok { segs := base ++ [f], trailing := false }) ∧
    (((∃ base, env.specSrc s = FindSpec.found base ∧ validName f ∧
          env.fs.isFile (base ++ [f]) = true) ∨
        (validName s ∧ validName f ∧
          env.fs.isFile (localDefaultsDir env ++ [s, f]) = true)) →
      ∃ p, getDefaultTxtPath env s f = Except.ok p ∧
        pyExists env.fs p = true ∧ pyBasename p = f) := by
  have hjoin : ∀ (base : List String), f ≠ "" →
      pyJoinStep { segs := base, trailing := false } f =
        { segs := base ++ [f], trailing := false } := by
    intro base hf
    unfold pyJoinStep
    rw [if_neg hf]
  constructor
  · intro base hb hf hfile
    unfold getDefaultTxtPath
    rw [hb]
    dsimp only
    rw [hjoin base hf.1, if_pos (pyExists_of_isFile _ _ hfile)]
  · intro hpres
    cases hsrc : env.specSrc s with
    | found base =>
      by_cases hx :
          pyExists env.fs (pyJoinStep { segs := base, trailing := false } f) = true
      · refine ⟨pyJoinStep { segs := base, trailing := false } f, ?_, hx, ?_⟩
        · unfold getDefaultTxtPath
          rw [hsrc]
          dsimp only
          rw [if_pos hx]
        · by_cases hf : f = ""
          · subst hf
            unfold pyJoinStep
            rw [if_pos rfl]
            rfl
          · rw [hjoin base hf]
            exact pyBasename_concat base f
      · have hlocal : validName s ∧ validName f ∧
            env.fs.isFile (localDefaultsDir env ++ [s, f]) = true := by
          rcases hpres with ⟨base', hb', hf', hfile'⟩ | hp
          · rw [hsrc] at hb'
            injection hb' with hb''
            subst hb''
            exact absurd ((hjoin base hf'.1) ▸ pyExists_of_isFile _ _ hfile') hx
          · exact hp
        obtain ⟨hs, hf, hfile⟩ := hlocal
        refine ⟨{ segs := localDefaultsDir env ++ [s, f], trailing := false }, ?_,
          pyExists_of_isFile _ _ hfile, ?_⟩
        · unfold getDefaultTxtPath
          rw [hsrc]
          dsimp only
          rw [if_neg hx]
          exact localFallback_ok env s f hs hf hfile
        · have : localDefaultsDir env ++ [s, f] = (localDefaultsDir env ++ [s]) ++ [f] := by
            simp
          rw [this]
          exact pyBasename_concat _ f
    | notFound =>
      have hlocal : validName s ∧ validName f ∧
          env.fs.isFile (localDefaultsDir env ++ [s, f]) = true := by
        rcases hpres with ⟨base', hb', _, _⟩ | hp
        · rw [hsrc] at hb'
          exact absurd hb' (by simp)
        · exact hp
      obtain ⟨hs, hf, hfile⟩ := hlocal
      refine ⟨{ segs := localDefaultsDir env ++ [s, f], trailing := false }, ?_,
        pyExists_of_isFile _ _ hfile, ?_⟩
      · unfold getDefaultTxtPath
        rw [hsrc]
        exact localFallback_ok env s f hs hf hfile
      · have : localDefaultsDir env ++ [s, f] = (localDefaultsDir env ++ [s]) ++ [f] := by
          simp
        rw [this]
        exact pyBasename_concat _ f
    | raises =>
      have hlocal : validName s ∧ validName f ∧
          env.fs.isFile (localDefaultsDir env ++ [s, f]) = true := by
        rcases hpres with ⟨base', hb', _, _⟩ | hp
        · rw [hsrc] at hb'
          exact absurd hb' (by simp)
        · exact hp
      obtain ⟨hs, hf, hfile⟩ := hlocal
      refine ⟨{ segs := localDefaultsDir env ++ [s, f], trailing := false }, ?_,
        pyExists_of_isFile _ _ hfile, ?_⟩
      · unfold getDefaultTxtPath
        rw [hsrc]
        exact localFallback_ok env s f hs hf hfile
      · have : localDefaultsDir env ++ [s, f] = (localDefaultsDir env ++ [s]) ++ [f] := by
          simp
        rw [this]
        exact pyBasename_concat _ f

/-- Witness for C5: the scenario's `carbon.txt`, present in the installed
tier, resolves to an existing path ending in `carbon.txt`. -/
theorem C5_present_file_resolves_witness :
    ∃ p, getDefaultTxtPath demoEnv "geant4_11_3_0" "carbon.txt" = Except.ok p ∧
      pyExists demoEnv.fs p = true ∧ pyBasename p = "carbon.txt" :=
  (C5_present_file_resolves demoEnv "geant4_11_3_0" "carbon.txt").2
    (Or.inl ⟨instRoot ++ ["geant4_11_3_0"], rfl, by decide, rfl⟩)

/-- C10:  With an empty filename the non-empty-filename precondition is
violated and `get_default_txt_path` returns the source *directory* instead
of failing: in the installed tier `os.path.join(base_dir, "")` leaves
`base_dir` with a trailing separator and `os.path.exists` accepts the
directory (first conjunct); when the installed tier fails, the local
fallback's `abspath` yields the local source directory itself, accepted the
same way (second conjunct). -/
theorem C10_empty_filename_returns_dir (env : Env) (s : String) :
    (∀ base, env.specSrc s = FindSpec.found base → env.fs.isDir base = true →
      getDefaultTxtPath env s "" = Except.ok { segs := base, trailing := true }) ∧
    ((∀ base, env.specSrc s = FindSpec.found base → env.fs.isDir base = false) →
      validName s → env.fs.isDir (localDefaultsDir env ++ [s]) = true →
      getDefaultTxtPath env s "" =
        Except.ok { segs := localDefaultsDir env ++ [s], trailing := false }) := by
  have hj : ∀ (base : List String), pyJoinStep { segs := base, trailing := false } "" =
      { segs := base, trailing := true } := by
    intro base
    unfold pyJoinStep
    rw [if_pos rfl]
  constructor
  · intro base hb hdir
    unfold getDefaultTxtPath
    rw [hb]
    dsimp only
    rw [hj base, if_pos (show pyExists env.fs { segs := base, trailing := true } = true from hdir)]
  · intro hnone hs hdir
    unfold getDefaultTxtPath
    cases hsrc : env.specSrc s with
    | found base =>
      dsimp only
      rw [hj base,
        if_neg (by simp [show pyExists env.fs { segs := base, trailing := true } = false from hnone base hsrc])]
      exact localFallback_empty_ok env s hs hdir
    | notFound => exact localFallback_empty_ok env s hs hdir
    | raises => exact localFallback_empty_ok env s hs hdir

/-- Witness for C10: the scenario's installed source directory is returned
(with trailing separator) when the filename is empty. -/
theorem C10_empty_filename_returns_dir_witness :
    getDefaultTxtPath demoEnv "geant4_11_3_0" "" =
      Except.ok { segs := instRoot ++ ["geant4_11_3_0"], trailing := true } :=
  (C10_empty_filename_returns_dir demoEnv "geant4_11_3_0").1
    (instRoot ++ ["geant4_11_3_0"]) rfl rfl

/-- C3 counterexample:  The claim says an installed-tier `elements.json`
that exists but contains invalid JSON yields MalformedLookup rather than a
result read from elsewhere.  In this environment the installed file exists
and does not parse, yet `load_lookup_table` returns the *local* fallback's
mapping: the `except Exception` of line 149 also swallows the
`json.JSONDecodeError` of the installed tier. -/
theorem C3_counterexample :
    envBadInstalledJson.fs.lookup (instData ++ ["elements.json"]) =
        some (Entry.file { lines := [], jsonOf := none }) ∧
      loadLookupTable envBadInstalledJson = Except.ok heJson :=
  ⟨rfl, rfl⟩

/-- C3 amended:  `load_lookup_table` returns the installed mapping
when the whole installed tier succeeds; after the installed tier fails for
*any* reason (probe raising, missing file, or invalid JSON alike), it falls
back to the local file: NotFound (builtin `FileNotFoundError`) exactly when
the local file is absent, MalformedLookup (`json.JSONDecodeError`) exactly
when the local file exists but does not parse, and otherwise the local
mapping — possibly read from elsewhere than the file the installed tier
located. -/
theorem C3_lookup_error_classification (env : Env) :
    (∀ j, installedLookup env = some j → loadLookupTable env = Except.ok j) ∧
    (installedLookup env = none →
      (env.fs.lookup (localElementsPath env).segs = none →
        loadLookupTable env =
          Except.error (PyErr.osNotFound (localElementsPath env).segs)) ∧
      (∀ c, env.fs.lookup (localElementsPath env).segs = some (Entry.file c) →
        (c.jsonOf = none → loadLookupTable env = Except.error PyErr.jsonDecodeErr) ∧
        (∀ j, c.jsonOf = some j → loadLookupTable env = Except.ok j))) := by
  constructor
  · intro j hj
    unfold loadLookupTable
    rw [hj]
  · intro hnone
    unfold loadLookupTable
    rw [hnone]
    dsimp only
    refine ⟨?_, ?_⟩
    · intro hl
      rw [hl]
    · intro c hc
      rw [hc]
      dsimp only
      refine ⟨?_, ?_⟩
      · intro hcn
        rw [hcn]
      · intro j hj
        rw [hj]

/-- Witness for C3's amended claim: with both tiers' `elements.json`
present but unparseable, loading fails with the JSON decode error. -/
theorem C3_lookup_error_classification_witness :
    loadLookupTable envBadBothJson = Except.error PyErr.jsonDecodeErr := by
  have h := (C3_lookup_error_classification envBadBothJson).2 rfl
  exact (h.2 { lines := [], jsonOf := none } rfl).1 rfl

/-- C7:  Whatever well-formed JSON object is stored in the
`elements.json` the resolution order actually locates, `load_lookup_table`
returns exactly that value, unchanged. -/
theorem C7_lookup_returns_stored (env : Env) (c : FileContent) (j : Json)
    (hloc : locatedElementsContent env = some c)
    (hjson : c.jsonOf = some j) :
    loadLookupTable env = Except.ok j := by
  cases hil : installedLookup env with
  | some j' =>
    have hj' : j' = j := by
      unfold installedLookup at hil
      unfold locatedElementsContent at hloc
      cases hd : env.filesData with
      | none => rw [hd] at hil; exact absurd hil (by simp)
      | some d =>
        rw [hd] at hil hloc
        dsimp only at hil hloc
        cases hl : env.fs.lookup (d ++ ["elements.json"]) with
        | none => rw [hl] at hil; exact absurd hil (by simp)
        | some en =>
          cases en with
          | dir => rw [hl] at hil; exact absurd hil (by simp)
          | file c0 =>
            rw [hl] at hil hloc
            dsimp only at hil hloc
            injection hloc with hc
            subst hc
            rw [hjson] at hil
            injection hil with h
            exact h.symm
    subst hj'
    unfold loadLookupTable
    rw [hil]
  | none =>
    have hlc : localElementsContent env = some c := by
      unfold installedLookup at hil
      unfold locatedElementsContent at hloc
      cases hd : env.filesData with
      | none => rw [hd] at hloc; exact hloc
      | some d =>
        rw [hd] at hil hloc
        dsimp only at hil hloc
        cases hl : env.fs.lookup (d ++ ["elements.json"]) with
        | none => rw [hl] at hloc; exact hloc
        | some en =>
          cases en with
          | dir => rw [hl] at hloc; exact hloc
          | file c0 =>
            rw [hl] at hil hloc
            dsimp only at hil hloc
            injection hloc with hc
            subst hc
            rw [hjson] at hil
            exact absurd hil (by simp)
    unfold loadLookupTable
    rw [hil]
    dsimp only
    unfold localElementsContent at hlc
    cases hl : env.fs.lookup (localElementsPath env).segs with
    | none => rw [hl] at hlc; exact absurd hlc (by simp)
    | some en =>
      cases en with
      | dir => rw [hl] at hlc; exact absurd hlc (by simp)
      | file c0 =>
        rw [hl] at hlc
        dsimp only at hlc
        injection hlc with hc
        subst hc
        dsimp only
        rw [hjson]

/-- Witness for C7: the scenario's installed `elements.json` storing
`{"H": {"Z": 1}}` loads to exactly that mapping. -/
theorem C7_lookup_returns_stored_witness :
    loadLookupTable demoEnv = Except.ok hJson :=
  C7_lookup_returns_stored demoEnv { lines := [], jsonOf := some hJson } hJson rfl rfl

/-- C8:  `list_available_defaults` resolves the source directory via the
installed tier first, returning exactly the `.txt`-suffixed names directly
inside it with no header validation (first conjunct); when that tier fails,
via `find_spec` on the same package (second conjunct); and when neither tier
resolves the source directory it fails with the NotFound error naming the
source (third conjunct). -/
theorem C8_list_defaults_two_tier (env : Env) (s : String) :
    (∀ p, env.filesSrc s = some p → env.fs.isDir p = true →
      listAvailableDefaults env s = Except.ok (txtNames env.fs p)) ∧
    ((∀ p, env.filesSrc s = some p → env.fs.isDir p = false) →
      (∀ base, env.specSrc s = FindSpec.found base → env.fs.isDir base = true →
        listAvailableDefaults env s = Except.ok (txtNames env.fs base)) ∧
      (env.specSrc s = FindSpec.notFound →
        listAvailableDefaults env s = Except.error (PyErr.notFoundSource s))) := by
  constructor
  · intro p hp hd
    unfold listAvailableDefaults
    rw [hp]
    dsimp only
    rw [if_pos hd]
  · intro hfail
    have hfb : listAvailableDefaults env s = ladFallback env s := by
      unfold listAvailableDefaults
      cases hp : env.filesSrc s with
      | none => rfl
      | some p =>
        dsimp only
        rw [if_neg (by simp [hfail p hp])]
    constructor
    · intro base hb hdir
      rw [hfb]
      unfold ladFallback
      rw [hb]
      dsimp only
      rw [(isDir_iff _ _).mp hdir]
    · intro hnf
      rw [hfb]
      unfold ladFallback
      rw [hnf]

/-- Witness for C8: the scenario's source lists exactly `["carbon.txt"]`. -/
theorem C8_list_defaults_two_tier_witness :
    listAvailableDefaults demoEnv "geant4_11_3_0" = Except.ok ["carbon.txt"] := by
  have h := (C8_list_defaults_two_tier demoEnv "geant4_11_3_0").1
    (instRoot ++ ["geant4_11_3_0"]) rfl rfl
  rw [h]
  rfl

/-- C9:  Every failure of `get_default_txt_path`,
`get_available_sources` and `list_available_defaults` is raised as the one
exception type `FileNotFoundError`; the spec's NotFound,
RegistryUnavailable and MalformedSource kinds differ only in message text
(last conjunct).  For the two functions whose `except` branches call
`find_spec` unguarded, the importlib probes are assumed not to raise and to
be coherent with the snapshot (a spec's origin directory is a directory);
every `.txt`-suffixed child of a marker-bearing source is assumed to be a
regular file (otherwise `open` raises `IsADirectoryError`). -/
theorem C9_single_exception_type (env : Env) (s f : String) :
    (∀ e, getDefaultTxtPath env s f = Except.error e →
      e.excType = ExcType.fileNotFoundError) ∧
    (env.specRoot ≠ FindSpec.raises →
      (∀ folder, env.specRoot = FindSpec.found folder →
        env.fs.isFile folder = false) →
      (∀ base, env.filesRoot = some base → ∀ d ∈ dirChildNames env.fs base,
        env.fs.isFile (base ++ [d, "__init__.py"]) = true →
        allFiles (txtChildren env.fs (base ++ [d])) = true) →
      ∀ e, getAvailableSources env = Except.error e →
        e.excType = ExcType.fileNotFoundError) ∧
    (env.specSrc s ≠ FindSpec.raises →
      (∀ base, env.specSrc s = FindSpec.found base →
        env.fs.isFile base = false) →
      ∀ e, listAvailableDefaults env s = Except.error e →
        e.excType = ExcType.fileNotFoundError) ∧
    ((PyErr.notFoundFile f s).excType = ExcType.fileNotFoundError ∧
      PyErr.registryUnavailable.excType = ExcType.fileNotFoundError ∧
      (∀ d miss, (PyErr.malformedSource d miss).excType =
        ExcType.fileNotFoundError) ∧
      (PyErr.notFoundSource s).excType = ExcType.fileNotFoundError) := by
  refine ⟨?_, ?_, ?_, rfl, rfl, fun d miss => rfl, rfl⟩
  · intro e he
    rw [getDefaultTxtPath_error_shape env s f e he]
    rfl
  · intro hr hfolder htxt e he
    unfold getAvailableSources at he
    cases hfr : env.filesRoot with
    | some base =>
      rw [hfr] at he
      dsimp only at he
      by_cases hd : env.fs.isDir base = true
      · rw [if_pos hd] at he
        obtain ⟨d, miss, rfl⟩ := enumSources_shape env.fs base _ e (htxt base hfr) he
        rfl
      · rw [if_neg hd] at he
        exact fallbackRaise_excType env hr hfolder e he
    | none =>
      rw [hfr] at he
      exact fallbackRaise_excType env hr hfolder e he
  · intro hr hbase e he
    unfold listAvailableDefaults at he
    cases hfs : env.filesSrc s with
    | some p =>
      rw [hfs] at he
      dsimp only at he
      by_cases hd : env.fs.isDir p = true
      · rw [if_pos hd] at he
        exact absurd he (by simp)
      · rw [if_neg hd] at he
        exact ladFallback_excType env s hr hbase e he
    | none =>
      rw [hfs] at he
      exact ladFallback_excType env s hr hbase e he

/-- Witness for C9: the malformed-source failure of the missing-`Target`
scenario carries exception type `FileNotFoundError` — indistinguishable by
type from a genuine missing-file error. -/
theorem C9_single_exception_type_witness :
    (PyErr.malformedSource "geant4_11_3_0" ["Target"]).excType =
      ExcType.fileNotFoundError := by
  refine (C9_single_exception_type envMissingTarget "s0" "f0").2.1 ?_ ?_ ?_
    (PyErr.malformedSource "geant4_11_3_0" ["Target"]) rfl
  · decide
  · intro folder hf
    injection hf with h
    subst h
    rfl
  · intro base hb
    injection hb with h
    subst h
    decide

end PyMKM
